import Mathlib

/-!
Verification of the feature-calculation core of the mlb-predict project
(`src/features/calculate_stats.py`, class `StatcastFeatureCalculator`).

The pitch table is embedded shallowly: a row is a `Pitch` record whose
optional columns are `Option`-valued (`none` models a pandas `NaN`), and a
table additionally records which optional columns are present at all
(`Cols`), since the Python code branches on `'col' in df.columns`.
Machine floats are modelled by exact rationals; a float expression that is
NaN or infinite (which in the source can only arise from an unguarded
division by zero) is modelled by `none : Option ℚ`.  A raised `KeyError`
(reading a column that is absent) is modelled by `Except.error`.
-/

/-- Which optional columns are present in the table.  The three key columns
`game_date`, `inning`, `at_bat_number` are always present (the constructor
sorts and groups by them), so they carry no flag. -/
structure Cols where
  events : Bool
  description : Bool
  zone : Bool
  launch_speed : Bool
  launch_angle : Bool
  launch_speed_angle : Bool
  bb_type : Bool
  hc_x : Bool
  stand : Bool
  estimated_woba_using_speedangle : Bool
  woba_value : Bool
  woba_denom : Bool
deriving DecidableEq

/-- One pitch-level row.  `none` in an optional field models a pandas `NaN`
in a present column (a field of a row whose column is absent is never read
by the translated code). -/
structure Pitch where
  game_date : Nat
  inning : Nat
  at_bat_number : Nat
  events : Option String
  description : Option String
  zone : Option Int
  launch_speed : Option ℚ
  launch_angle : Option ℚ
  launch_speed_angle : Option Int
  bb_type : Option String
  hc_x : Option ℚ
  stand : Option String
  estimated_woba_using_speedangle : Option ℚ
  woba_value : Option ℚ
  woba_denom : Option ℚ
deriving DecidableEq

/-- A raw pitch table: the presence flags of the optional columns plus the
rows. -/
structure PitchTable where
  cols : Cols
  rows : List Pitch
deriving DecidableEq

/-- The `(game_date, inning, at_bat_number)` lexicographic order used by
`sort_values(['game_date', 'inning', 'at_bat_number'])`. -/
def pitchLe (p q : Pitch) : Prop :=
  p.game_date < q.game_date ∨
    (p.game_date = q.game_date ∧
      (p.inning < q.inning ∨
        (p.inning = q.inning ∧ p.at_bat_number ≤ q.at_bat_number)))

instance : DecidableRel pitchLe := fun p q => by
  unfold pitchLe; infer_instance

instance : IsTotal Pitch pitchLe := by
  constructor; intro a b; unfold pitchLe; omega

instance : IsTrans Pitch pitchLe := by
  constructor; intro a b c; unfold pitchLe; omega

/-- The stable multi-column sort of line 25 of `calculate_stats.py`
(`sort_values` over several columns lexsorts, which is stable). -/
def sortPitches (rows : List Pitch) : List Pitch :=
  rows.insertionSort pitchLe

/-- The plate-appearance grouping key `(game_date, at_bat_number)` of the
`groupby` on line 26. -/
def paKey (p : Pitch) : Nat × Nat :=
  (p.game_date, p.at_bat_number)

/-- Lexicographic order on group keys; `groupby(..., sort=True)` (the
default) emits the groups with their keys in this order. -/
def keyLe (a b : Nat × Nat) : Prop :=
  a.1 < b.1 ∨ (a.1 = b.1 ∧ a.2 ≤ b.2)

instance : DecidableRel keyLe := fun a b => by
  unfold keyLe; infer_instance

instance : IsTotal (Nat × Nat) keyLe := by
  constructor; intro a b; unfold keyLe; omega

instance : IsTrans (Nat × Nat) keyLe := by
  constructor; intro a b c; unfold keyLe; omega

/-- Ascending sort of the distinct group keys. -/
def sortKeys (ks : List (Nat × Nat)) : List (Nat × Nat) :=
  ks.insertionSort keyLe

/-- The rows of one `(game_date, at_bat_number)` group, in the order they
have in the sorted table. -/
def groupRows (sorted : List Pitch) (k : Nat × Nat) : List Pitch :=
  sorted.filter (fun p => paKey p == k)

/-- The last non-null value of one column within a group: pandas
`DataFrameGroupBy.last()` takes, per column, the last entry that is not
`NaN` (it does not simply keep the terminal row). -/
def lastNonNull {α : Type} (g : List Pitch) (f : Pitch → Option α) : Option α :=
  (g.filterMap f).getLast?

/-- The aggregated row `groupby(['game_date','at_bat_number']).last()`
produces for one group, with the key written back by `reset_index()`.
Each optional column independently receives its last non-null value; the
always-present `inning` column therefore receives the terminal row's
inning. -/
def paOfGroup (k : Nat × Nat) (g : List Pitch) : Pitch where
  game_date := k.1
  inning := ((g.getLast?).map Pitch.inning).getD 0
  at_bat_number := k.2
  events := lastNonNull g Pitch.events
  description := lastNonNull g Pitch.description
  zone := lastNonNull g Pitch.zone
  launch_speed := lastNonNull g Pitch.launch_speed
  launch_angle := lastNonNull g Pitch.launch_angle
  launch_speed_angle := lastNonNull g Pitch.launch_speed_angle
  bb_type := lastNonNull g Pitch.bb_type
  hc_x := lastNonNull g Pitch.hc_x
  stand := lastNonNull g Pitch.stand
  estimated_woba_using_speedangle := lastNonNull g Pitch.estimated_woba_using_speedangle
  woba_value := lastNonNull g Pitch.woba_value
  woba_denom := lastNonNull g Pitch.woba_denom

/-- The pitch → plate-appearance reduction of lines 25–26: stable sort by
`(game_date, inning, at_bat_number)`, then one aggregated row per distinct
`(game_date, at_bat_number)` key, keys ascending. -/
def makePas (rows : List Pitch) : List Pitch :=
  (sortKeys (((sortPitches rows).map paKey).dedup)).map
    (fun k => paOfGroup k (groupRows (sortPitches rows) k))

/-- The `KeyError`s the calculator can raise: the constructor reads the
`events` and `launch_speed` columns unconditionally (lines 29 and 32), and
the launch-angle metrics read `launch_angle` without a column check. -/
inductive ColErr where
  | events
  | launch_speed
  | launch_angle
deriving DecidableEq

/-- The state the constructor builds: the column flags, the sorted pitch
table and the plate-appearance table. -/
structure StatcastFeatureCalculator where
  cols : Cols
  pitch_data : List Pitch
  pas : List Pitch
deriving DecidableEq

namespace StatcastFeatureCalculator

/-- The constructor (`__init__`, lines 22–32): sort, reduce to plate
appearances, then eagerly index the `events` and `launch_speed` columns —
a `KeyError` (modelled as `Except.error`) if either column is absent. -/
def init (t : PitchTable) : Except ColErr StatcastFeatureCalculator :=
  if t.cols.events = false then Except.error ColErr.events
  else if t.cols.launch_speed = false then Except.error ColErr.launch_speed
  else Except.ok
    { cols := t.cols
      pitch_data := sortPitches t.rows
      pas := makePas t.rows }

/-- Line 29: `self.pas['events'].dropna()`. -/
def events (c : StatcastFeatureCalculator) : List String :=
  c.pas.filterMap Pitch.events

/-- Line 32: `self.pas[self.pas['launch_speed'].notna()]`. -/
def batted_balls (c : StatcastFeatureCalculator) : List Pitch :=
  c.pas.filter (fun p => p.launch_speed.isSome)

end StatcastFeatureCalculator

/-- The hit events of `_avg`, `_obp`. -/
def hitEvents : List String :=
  ["single", "double", "triple", "home_run"]

/-- The events excluded from the at-bat denominator (`non_ab` in `_avg`,
`_slg`). -/
def nonAbEvents : List String :=
  ["walk", "hit_by_pitch", "sac_fly", "sac_bunt", "catcher_interf"]

/-- The events excluded from the balls-in-play denominator of `_babip`. -/
def nonBabipEvents : List String :=
  ["walk", "hit_by_pitch", "sac_fly", "sac_bunt", "catcher_interf",
   "strikeout", "strikeout_double_play", "home_run"]

/-- The swing descriptions of the zone discipline metrics. -/
def swingDescs : List String :=
  ["foul", "hit_into_play", "swinging_strike", "swinging_strike_blocked", "foul_tip"]

/-- The contact descriptions of `_o_contact_rate` / `_z_contact_rate`. -/
def contactDescs : List String :=
  ["foul", "hit_into_play", "foul_tip"]

/-- The whiff descriptions of `_swinging_strike_rate`. -/
def whiffDescs : List String :=
  ["swinging_strike", "swinging_strike_blocked"]

/-- Pandas membership of a possibly-NaN string cell in a list of values:
`NaN` is in no set. -/
def cellIn (x : Option String) (vs : List String) : Bool :=
  match x with
  | some s => vs.contains s
  | none => false

/-- Pandas comparison `cell >= q` of a possibly-NaN numeric cell: a
comparison with `NaN` is false. -/
def cellGe (x : Option ℚ) (q : ℚ) : Bool :=
  match x with
  | some v => q ≤ v
  | none => false

/-- Pandas comparison `cell <= q` of a possibly-NaN numeric cell. -/
def cellLe (x : Option ℚ) (q : ℚ) : Bool :=
  match x with
  | some v => v ≤ q
  | none => false

/-- Pandas comparison `cell < q` of a possibly-NaN numeric cell. -/
def cellLt (x : Option ℚ) (q : ℚ) : Bool :=
  match x with
  | some v => v < q
  | none => false

/-- Pandas comparison `cell > q` of a possibly-NaN numeric cell. -/
def cellGt (x : Option ℚ) (q : ℚ) : Bool :=
  match x with
  | some v => q < v
  | none => false

/-- Python / numpy true division: dividing by zero does not raise on numpy
operands but yields a non-finite float (`0/0` is `NaN`), modelled `none`;
otherwise the exact quotient. -/
def npDiv (a b : ℚ) : Option ℚ :=
  if b = 0 then none else some (a / b)

/-- The mean of a list of rationals (used only on non-empty lists, where
pandas `Series.mean()` over the non-null entries is total). -/
def listMean (l : List ℚ) : ℚ :=
  l.sum / l.length

namespace StatcastFeatureCalculator

/-- Batting average, `_avg` (lines 73–78). -/
def _avg (c : StatcastFeatureCalculator) : ℚ :=
  if c.events.countP (fun e => !(nonAbEvents.contains e)) > 0 then
    (c.events.countP (fun e => hitEvents.contains e) : ℚ) /
      (c.events.countP (fun e => !(nonAbEvents.contains e)))
  else 0

/-- On-base percentage, `_obp` (lines 80–85). -/
def _obp (c : StatcastFeatureCalculator) : ℚ :=
  if c.events.length > 0 then
    ((c.events.countP (fun e => hitEvents.contains e) +
        c.events.countP (fun e => e == "walk") +
        c.events.countP (fun e => e == "hit_by_pitch") : ℕ) : ℚ) / c.events.length
  else 0

/-- Slugging percentage, `_slg` (lines 87–97). -/
def _slg (c : StatcastFeatureCalculator) : ℚ :=
  if c.events.countP (fun e => !(nonAbEvents.contains e)) > 0 then
    ((c.events.countP (fun e => e == "single") +
        2 * c.events.countP (fun e => e == "double") +
        3 * c.events.countP (fun e => e == "triple") +
        4 * c.events.countP (fun e => e == "home_run") : ℕ) : ℚ) /
      (c.events.countP (fun e => !(nonAbEvents.contains e)))
  else 0

/-- On-base plus slugging, `_ops` (lines 99–101). -/
def _ops (c : StatcastFeatureCalculator) : ℚ :=
  c._obp + c._slg

/-- Isolated power, `_iso` (lines 103–105). -/
def _iso (c : StatcastFeatureCalculator) : ℚ :=
  c._slg - c._avg

/-- Walk rate, `_bb_rate` (lines 107–110). -/
def _bb_rate (c : StatcastFeatureCalculator) : ℚ :=
  if c.events.length > 0 then
    (c.events.countP (fun e => e == "walk") : ℚ) / c.events.length
  else 0

/-- Strikeout rate, `_k_rate` (lines 112–115). -/
def _k_rate (c : StatcastFeatureCalculator) : ℚ :=
  if c.events.length > 0 then
    (c.events.countP (fun e => cellIn (some e) ["strikeout", "strikeout_double_play"]) : ℚ) /
      c.events.length
  else 0

/-- Batting average on balls in play, `_babip` (lines 117–123). -/
def _babip (c : StatcastFeatureCalculator) : ℚ :=
  if c.events.countP (fun e => !(nonBabipEvents.contains e)) > 0 then
    (c.events.countP (fun e => cellIn (some e) ["single", "double", "triple"]) : ℚ) /
      (c.events.countP (fun e => !(nonBabipEvents.contains e)))
  else 0

/-- Home-run to fly-ball ratio, `_hr_fb` (lines 125–131). -/
def _hr_fb (c : StatcastFeatureCalculator) : ℚ :=
  if c.cols.bb_type = false then 0
  else if c.batted_balls.countP (fun p => cellIn p.bb_type ["fly_ball", "popup"]) > 0 then
    (c.events.countP (fun e => e == "home_run") : ℚ) /
      (c.batted_balls.countP (fun p => cellIn p.bb_type ["fly_ball", "popup"]))
  else 0

/-- Line-drive rate, `_ld_rate` (lines 133–138). -/
def _ld_rate (c : StatcastFeatureCalculator) : ℚ :=
  if c.cols.bb_type = false then 0
  else if c.batted_balls.length > 0 then
    (c.batted_balls.countP (fun p => p.bb_type == some ("line_drive")) : ℚ) /
      c.batted_balls.length
  else 0

/-- Ground-ball rate, `_gb_rate` (lines 140–145). -/
def _gb_rate (c : StatcastFeatureCalculator) : ℚ :=
  if c.cols.bb_type = false then 0
  else if c.batted_balls.length > 0 then
    (c.batted_balls.countP (fun p => p.bb_type == some ("ground_ball")) : ℚ) /
      c.batted_balls.length
  else 0

/-- Fly-ball rate, `_fb_rate` (lines 147–152). -/
def _fb_rate (c : StatcastFeatureCalculator) : ℚ :=
  if c.cols.bb_type = false then 0
  else if c.batted_balls.length > 0 then
    (c.batted_balls.countP (fun p => cellIn p.bb_type ["fly_ball", "popup"]) : ℚ) /
      c.batted_balls.length
  else 0

/-- Expected weighted on-base average, `_xwoba` (lines 154–173): mean of
the non-null `estimated_woba_using_speedangle` values when the column is
present and any value is; otherwise, when both `woba_value` and
`woba_denom` columns are present, the quotient of their independent
non-null sums (pandas `Series.sum()` skips `NaN`) when the denominator sum
is positive; otherwise `0`. -/
def _xwoba (c : StatcastFeatureCalculator) : ℚ :=
  let xwoba_values := c.pas.filterMap Pitch.estimated_woba_using_speedangle
  if c.cols.estimated_woba_using_speedangle = true ∧ xwoba_values.length > 0 then
    listMean xwoba_values
  else
    let total_value := (c.pas.filterMap Pitch.woba_value).sum
    let total_denom := (c.pas.filterMap Pitch.woba_denom).sum
    if c.cols.woba_value = true ∧ c.cols.woba_denom = true ∧ total_denom > 0 then
      total_value / total_denom
    else 0

/-- Expected weighted runs created plus, `_xwrc_plus` (lines 175–198). -/
def _xwrc_plus (c : StatcastFeatureCalculator) : ℚ :=
  if c._xwoba = 0 then 100
  else max 0 (((c._xwoba - 0.320) / 1.25) / 0.320 * 100 + 100)

/-- Average exit velocity, `_avg_exit_velo` (lines 221–225). -/
def _avg_exit_velo (c : StatcastFeatureCalculator) : ℚ :=
  if c.batted_balls.length = 0 then 0
  else listMean (c.batted_balls.filterMap Pitch.launch_speed)

/-- Maximum exit velocity, `_max_exit_velo` (lines 227–231). -/
def _max_exit_velo (c : StatcastFeatureCalculator) : ℚ :=
  if c.batted_balls.length = 0 then 0
  else ((c.batted_balls.filterMap Pitch.launch_speed).max?).getD 0

/-- Average launch angle, `_avg_launch_angle` (lines 233–237): indexes the
`launch_angle` column without a presence check (`KeyError` when absent and
there are batted balls); `Series.mean()` of an all-NaN column is `NaN`
(modelled `none`). -/
def _avg_launch_angle (c : StatcastFeatureCalculator) : Except ColErr (Option ℚ) :=
  if c.batted_balls.length = 0 then Except.ok (some 0)
  else if c.cols.launch_angle = false then Except.error ColErr.launch_angle
  else if (c.batted_balls.filterMap Pitch.launch_angle).length = 0 then Except.ok none
  else Except.ok (some (listMean (c.batted_balls.filterMap Pitch.launch_angle)))

/-- Hard-hit rate, `_hard_hit_rate` (lines 239–244). -/
def _hard_hit_rate (c : StatcastFeatureCalculator) : ℚ :=
  if c.batted_balls.length = 0 then 0
  else (c.batted_balls.countP (fun p => cellGe p.launch_speed 95) : ℚ) /
    c.batted_balls.length

/-- Barrel rate, `_barrel_rate` (lines 246–269): per plate appearance; the
fallback branch indexes `launch_angle` without a presence check. -/
def _barrel_rate (c : StatcastFeatureCalculator) : Except ColErr ℚ :=
  if c.pas.length = 0 then Except.ok 0
  else if c.cols.launch_speed_angle = true then
    Except.ok ((c.batted_balls.countP (fun p => p.launch_speed_angle == some 6) : ℚ) /
      c.pas.length)
  else if c.batted_balls.length = 0 then Except.ok 0
  else if c.cols.launch_angle = false then Except.error ColErr.launch_angle
  else Except.ok ((c.batted_balls.countP
      (fun p => cellGe p.launch_speed 98 && cellGe p.launch_angle 26 &&
        cellLe p.launch_angle 30) : ℚ) / c.pas.length)

/-- Sweet-spot rate, `_sweet_spot_rate` (lines 271–279): indexes
`launch_angle` without a presence check. -/
def _sweet_spot_rate (c : StatcastFeatureCalculator) : Except ColErr ℚ :=
  if c.batted_balls.length = 0 then Except.ok 0
  else if c.cols.launch_angle = false then Except.error ColErr.launch_angle
  else Except.ok ((c.batted_balls.countP
      (fun p => cellGe p.launch_angle 8 && cellLe p.launch_angle 32) : ℚ) /
    c.batted_balls.length)

/-- Outside-zone pitch test: `zone` in `[11, 12, 13, 14]`. -/
def outsideZone (z : Option Int) : Bool :=
  match z with
  | some v => 11 ≤ v && v ≤ 14
  | none => false

/-- Inside-zone pitch test: `zone` in `range(1, 10)`. -/
def insideZone (z : Option Int) : Bool :=
  match z with
  | some v => 1 ≤ v && v ≤ 9
  | none => false

/-- Outside-zone swing rate, `_o_swing_rate` (lines 281–298). -/
def _o_swing_rate (c : StatcastFeatureCalculator) : ℚ :=
  if c.cols.zone = false ∨ c.cols.description = false then 0
  else if (c.pitch_data.filter (fun p => outsideZone p.zone)).length = 0 then 0
  else ((c.pitch_data.filter (fun p => outsideZone p.zone)).countP
      (fun p => cellIn p.description swingDescs) : ℚ) /
    (c.pitch_data.filter (fun p => outsideZone p.zone)).length

/-- Inside-zone swing rate, `_z_swing_rate` (lines 300–317). -/
def _z_swing_rate (c : StatcastFeatureCalculator) : ℚ :=
  if c.cols.zone = false ∨ c.cols.description = false then 0
  else if (c.pitch_data.filter (fun p => insideZone p.zone)).length = 0 then 0
  else ((c.pitch_data.filter (fun p => insideZone p.zone)).countP
      (fun p => cellIn p.description swingDescs) : ℚ) /
    (c.pitch_data.filter (fun p => insideZone p.zone)).length

/-- Swinging-strike rate, `_swinging_strike_rate` (lines 319–328): the only
division whose denominator — the total pitch count — is not guarded, so an
empty table yields `0/0` on numpy operands, which is `NaN` (`none`), not an
exception. -/
def _swinging_strike_rate (c : StatcastFeatureCalculator) : Option ℚ :=
  if c.cols.description = false then some 0
  else npDiv (c.pitch_data.countP (fun p => cellIn p.description whiffDescs))
    c.pitch_data.length

/-- Outside-zone contact rate, `_o_contact_rate` (lines 330–349). -/
def _o_contact_rate (c : StatcastFeatureCalculator) : ℚ :=
  if c.cols.zone = false ∨ c.cols.description = false then 0
  else if (c.pitch_data.filter
      (fun p => outsideZone p.zone && cellIn p.description swingDescs)).length = 0 then 0
  else ((c.pitch_data.filter
      (fun p => outsideZone p.zone && cellIn p.description swingDescs)).countP
      (fun p => cellIn p.description contactDescs) : ℚ) /
    (c.pitch_data.filter
      (fun p => outsideZone p.zone && cellIn p.description swingDescs)).length

/-- Inside-zone contact rate, `_z_contact_rate` (lines 351–370). -/
def _z_contact_rate (c : StatcastFeatureCalculator) : ℚ :=
  if c.cols.zone = false ∨ c.cols.description = false then 0
  else if (c.pitch_data.filter
      (fun p => insideZone p.zone && cellIn p.description swingDescs)).length = 0 then 0
  else ((c.pitch_data.filter
      (fun p => insideZone p.zone && cellIn p.description swingDescs)).countP
      (fun p => cellIn p.description contactDescs) : ℚ) /
    (c.pitch_data.filter
      (fun p => insideZone p.zone && cellIn p.description swingDescs)).length

/-- The per-row test of the `_pull_rate` loop: both cells non-null and on
the pull side of the 125 centerline for the batter's handedness. -/
def pullCond (p : Pitch) : Bool :=
  p.hc_x.isSome && p.stand.isSome &&
    ((p.stand == some ("R") && cellLt p.hc_x 125) ||
     (p.stand == some ("L") && cellGt p.hc_x 125))

/-- The per-row test of the `_oppo_rate` loop (mirror of `pullCond`). -/
def oppoCond (p : Pitch) : Bool :=
  p.hc_x.isSome && p.stand.isSome &&
    ((p.stand == some ("R") && cellGt p.hc_x 125) ||
     (p.stand == some ("L") && cellLt p.hc_x 125))

/-- Pull rate, `_pull_rate` (lines 372–388): counts rows passing the loop
test, divides by the full batted-ball count. -/
def _pull_rate (c : StatcastFeatureCalculator) : ℚ :=
  if c.cols.hc_x = false ∨ c.cols.stand = false then 0
  else if c.batted_balls.length = 0 then 0
  else (c.batted_balls.countP pullCond : ℚ) / c.batted_balls.length

/-- Center rate, `_center_rate` (lines 390–404): only the `hc_x` column is
required; handedness is never consulted. -/
def _center_rate (c : StatcastFeatureCalculator) : ℚ :=
  if c.cols.hc_x = false then 0
  else if c.batted_balls.length = 0 then 0
  else (c.batted_balls.countP (fun p => cellGe p.hc_x 100 && cellLe p.hc_x 150) : ℚ) /
    c.batted_balls.length

/-- Opposite-field rate, `_oppo_rate` (lines 406–422). -/
def _oppo_rate (c : StatcastFeatureCalculator) : ℚ :=
  if c.cols.hc_x = false ∨ c.cols.stand = false then 0
  else if c.batted_balls.length = 0 then 0
  else (c.batted_balls.countP oppoCond : ℚ) / c.batted_balls.length

/-- The 14 basic features of `_basic_features` (lines 54–71), in dict
order.  Values are Python floats: `some` a finite rational. -/
def _basic_features (c : StatcastFeatureCalculator) : List (String × Option ℚ) :=
  [("AVG", some c._avg), ("OBP", some c._obp), ("SLG", some c._slg),
   ("OPS", some c._ops), ("ISO", some c._iso), ("BB%", some c._bb_rate),
   ("K%", some c._k_rate), ("BABIP", some c._babip), ("HR/FB", some c._hr_fb),
   ("LD%", some c._ld_rate), ("GB%", some c._gb_rate), ("FB%", some c._fb_rate),
   ("xwOBA", some c._xwoba), ("xwRC+", some c._xwrc_plus)]

/-- The 14 advanced features of `_advanced_features` (lines 202–219), in
dict order; building the dict evaluates every metric, so a `KeyError` in
any of them aborts the whole call. -/
def _advanced_features (c : StatcastFeatureCalculator) :
    Except ColErr (List (String × Option ℚ)) := do
  let barrel ← c._barrel_rate
  let la ← c._avg_launch_angle
  let sweet ← c._sweet_spot_rate
  pure
    [("Hard%", some c._hard_hit_rate), ("EV", some c._avg_exit_velo),
     ("maxEV", some c._max_exit_velo), ("Barrel%", some barrel),
     ("LA", la), ("Sweet Spot%", some sweet),
     ("O-Swing%", some c._o_swing_rate), ("Z-Swing%", some c._z_swing_rate),
     ("SwStr%", c._swinging_strike_rate),
     ("O-Contact%", some c._o_contact_rate), ("Z-Contact%", some c._z_contact_rate),
     ("Pull%", some c._pull_rate), ("Cent%", some c._center_rate),
     ("Oppo%", some c._oppo_rate)]

/-- `calculate_all_features` (lines 34–50): the 14 basic then the 14
advanced features. -/
def calculate_all_features (c : StatcastFeatureCalculator) :
    Except ColErr (List (String × Option ℚ)) := do
  let advanced ← c._advanced_features
  pure (c._basic_features ++ advanced)

end StatcastFeatureCalculator

/-- The fixed 28 metric keys of the output mapping, in dict order. -/
def featureKeys : List String :=
  ["AVG", "OBP", "SLG", "OPS", "ISO", "BB%", "K%", "BABIP", "HR/FB",
   "LD%", "GB%", "FB%", "xwOBA", "xwRC+",
   "Hard%", "EV", "maxEV", "Barrel%", "LA", "Sweet Spot%",
   "O-Swing%", "Z-Swing%", "SwStr%", "O-Contact%", "Z-Contact%",
   "Pull%", "Cent%", "Oppo%"]

/-! ### Concrete tables used by counterexamples and witnesses -/

/-- A table whose optional columns are all present. -/
def allCols : Cols where
  events := true
  description := true
  zone := true
  launch_speed := true
  launch_angle := true
  launch_speed_angle := true
  bb_type := true
  hc_x := true
  stand := true
  estimated_woba_using_speedangle := true
  woba_value := true
  woba_denom := true

/-- A pitch row with key `(1, 1, 1)` and every optional cell null. -/
def pitchBase : Pitch where
  game_date := 1
  inning := 1
  at_bat_number := 1
  events := none
  description := none
  zone := none
  launch_speed := none
  launch_angle := none
  launch_speed_angle := none
  bb_type := none
  hc_x := none
  stand := none
  estimated_woba_using_speedangle := none
  woba_value := none
  woba_denom := none

/-- A table with every column present and zero rows — the shape an empty
regular-season fetch produces. -/
def emptyTable : PitchTable where
  cols := allCols
  rows := []

/-- The calculator state the constructor builds from `emptyTable`. -/
def emptyCalc : StatcastFeatureCalculator where
  cols := allCols
  pitch_data := []
  pas := []

/-- A two-pitch plate appearance whose NON-terminal pitch carries the
outcome event; the terminal pitch has a null `events` cell. -/
def c1p1 : Pitch :=
  { pitchBase with events := some ("strikeout") }

/-- The terminal pitch of the `c1Rows` group: same key, null `events`. -/
def c1p2 : Pitch :=
  pitchBase

/-- Input rows for the C1 counterexample: one group, event on the first
pitch only. -/
def c1Rows : List Pitch :=
  [c1p1, c1p2]

/-- The plate-appearance row the reducer actually produces from `c1Rows`:
it carries the NON-terminal pitch's `events` value. -/
def c1Pa : Pitch :=
  { pitchBase with events := some ("strikeout") }

/-- A non-empty table whose `events` column is absent. -/
def noEventsTable : PitchTable where
  cols := { allCols with events := false }
  rows := [pitchBase]

/-- A table for the C3 witness: only the two constructor-required columns
are present, and the single row has a null `launch_speed`. -/
def c3wTable : PitchTable where
  cols :=
    { events := true, description := false, zone := false, launch_speed := true,
      launch_angle := false, launch_speed_angle := false, bb_type := false,
      hc_x := false, stand := false, estimated_woba_using_speedangle := false,
      woba_value := false, woba_denom := false }
  rows := [pitchBase]

/-- First row of the C9 counterexample: `woba_value` present, `woba_denom`
null. -/
def c9p1 : Pitch :=
  { pitchBase with woba_value := some (9/10) }

/-- Second row of the C9 counterexample: `woba_denom` present, `woba_value`
null, distinct plate appearance. -/
def c9p2 : Pitch :=
  { pitchBase with at_bat_number := 2, woba_denom := some 1 }

/-- The C9 counterexample table: no `estimated_woba_using_speedangle`
column, so the wOBA fallback runs; no row has BOTH `woba_value` and
`woba_denom`. -/
def c9Table : PitchTable where
  cols := { allCols with estimated_woba_using_speedangle := false }
  rows := [c9p1, c9p2]

/-- The calculator state built from `c9Table`. -/
def c9calc : StatcastFeatureCalculator where
  cols := { allCols with estimated_woba_using_speedangle := false }
  pitch_data := [c9p1, c9p2]
  pas := [c9p1, c9p2]

/-- A calculator with three batted balls for the C10 witness: a pulled
ball, a centred ball, and a ball whose `stand` cell is null. -/
def c10calc : StatcastFeatureCalculator where
  cols := allCols
  pitch_data := []
  pas :=
    [{ pitchBase with launch_speed := some 90, hc_x := some 50, stand := some ("R") },
     { pitchBase with at_bat_number := 2, launch_speed := some 91, hc_x := some 120, stand := some ("R") },
     { pitchBase with at_bat_number := 3, launch_speed := some 92, hc_x := some 130 }]

/-- The feature list `calculate_all_features` returns on `emptyCalc`,
written out: every metric at its default except `SwStr%`, which is NaN. -/
def c5wFeats : List (String × Option ℚ) :=
  [("AVG", some 0), ("OBP", some 0), ("SLG", some 0), ("OPS", some 0),
   ("ISO", some 0), ("BB%", some 0), ("K%", some 0), ("BABIP", some 0),
   ("HR/FB", some 0), ("LD%", some 0), ("GB%", some 0), ("FB%", some 0),
   ("xwOBA", some 0), ("xwRC+", some 100),
   ("Hard%", some 0), ("EV", some 0), ("maxEV", some 0), ("Barrel%", some 0),
   ("LA", some 0), ("Sweet Spot%", some 0), ("O-Swing%", some 0),
   ("Z-Swing%", some 0), ("SwStr%", none), ("O-Contact%", some 0),
   ("Z-Contact%", some 0), ("Pull%", some 0), ("Cent%", some 0), ("Oppo%", some 0)]

/-! ### Spec-side formulations the claims are settled against -/

/-- The rows of the `(game_date, at_bat_number)` group a given
plate-appearance row came from, in sorted order. -/
def paGroup (rows : List Pitch) (pa : Pitch) : List Pitch :=
  groupRows (sortPitches rows) (pa.game_date, pa.at_bat_number)

/-- One output field against the terminal pitch `q` of its group `g`: the
terminal pitch's value wins whenever it is non-null, and a null on the
terminal pitch falls back to the last non-null value among the earlier
pitches of the group. -/
def terminalFieldWins {α : Type} (f : Pitch → Option α) (g : List Pitch) (q : Pitch)
    (v : Option α) : Prop :=
  ((f q).isSome = true → v = f q) ∧
  (f q = none → v = (g.dropLast.filterMap f).getLast?)

/-- The per-field semantics of one reduced row (C1, amended): the group is
non-empty, the always-present `inning` comes from the terminal pitch, and
every optional field obeys `terminalFieldWins`. -/
def lastNonNullSemantics (rows : List Pitch) (pa : Pitch) : Prop :=
  ∃ hg : paGroup rows pa ≠ [],
    pa.inning = ((paGroup rows pa).getLast hg).inning ∧
    terminalFieldWins Pitch.events (paGroup rows pa) ((paGroup rows pa).getLast hg) pa.events ∧
    terminalFieldWins Pitch.description (paGroup rows pa) ((paGroup rows pa).getLast hg)
      pa.description ∧
    terminalFieldWins Pitch.zone (paGroup rows pa) ((paGroup rows pa).getLast hg) pa.zone ∧
    terminalFieldWins Pitch.launch_speed (paGroup rows pa) ((paGroup rows pa).getLast hg)
      pa.launch_speed ∧
    terminalFieldWins Pitch.launch_angle (paGroup rows pa) ((paGroup rows pa).getLast hg)
      pa.launch_angle ∧
    terminalFieldWins Pitch.launch_speed_angle (paGroup rows pa) ((paGroup rows pa).getLast hg)
      pa.launch_speed_angle ∧
    terminalFieldWins Pitch.bb_type (paGroup rows pa) ((paGroup rows pa).getLast hg) pa.bb_type ∧
    terminalFieldWins Pitch.hc_x (paGroup rows pa) ((paGroup rows pa).getLast hg) pa.hc_x ∧
    terminalFieldWins Pitch.stand (paGroup rows pa) ((paGroup rows pa).getLast hg) pa.stand ∧
    terminalFieldWins Pitch.estimated_woba_using_speedangle (paGroup rows pa)
      ((paGroup rows pa).getLast hg) pa.estimated_woba_using_speedangle ∧
    terminalFieldWins Pitch.woba_value (paGroup rows pa) ((paGroup rows pa).getLast hg)
      pa.woba_value ∧
    terminalFieldWins Pitch.woba_denom (paGroup rows pa) ((paGroup rows pa).getLast hg)
      pa.woba_denom

/-- Membership of a rational in the closed unit interval. -/
def inUnitInterval (x : ℚ) : Prop :=
  0 ≤ x ∧ x ≤ 1

/-- The bounded-rates property (C7, amended): every percentage-style metric
lies in `[0, 1]` whenever it evaluates to a finite number; the three
metrics that are not total (`Barrel%` and `Sweet Spot%` can raise,
`SwStr%` can be NaN) are bounded conditionally on producing a value. -/
def boundedRates (c : StatcastFeatureCalculator) : Prop :=
  inUnitInterval c._avg ∧ inUnitInterval c._obp ∧ inUnitInterval c._bb_rate ∧
  inUnitInterval c._k_rate ∧ inUnitInterval c._babip ∧ inUnitInterval c._hard_hit_rate ∧
  inUnitInterval c._ld_rate ∧ inUnitInterval c._gb_rate ∧ inUnitInterval c._fb_rate ∧
  inUnitInterval c._o_swing_rate ∧ inUnitInterval c._z_swing_rate ∧
  inUnitInterval c._o_contact_rate ∧ inUnitInterval c._z_contact_rate ∧
  inUnitInterval c._pull_rate ∧ inUnitInterval c._center_rate ∧ inUnitInterval c._oppo_rate ∧
  (∀ v, c._barrel_rate = Except.ok v → inUnitInterval v) ∧
  (∀ v, c._sweet_spot_rate = Except.ok v → inUnitInterval v) ∧
  (∀ v, c._swinging_strike_rate = some v → inUnitInterval v)

/-- The output-shape property (C5, amended): the key list is exactly the
fixed 28-key catalog, every key other than `SwStr%` and `LA` is bound to a
finite numeric value, and those two are NaN exactly in their respective
degenerate situations. -/
def featureCompleteness (c : StatcastFeatureCalculator)
    (fs : List (String × Option ℚ)) : Prop :=
  fs.map Prod.fst = featureKeys ∧
  (∀ k v, (k, v) ∈ fs → ¬k = "SwStr%" → ¬k = "LA" → v.isSome = true) ∧
  (fs.lookup ("SwStr%") = some none ↔
    c.cols.description = true ∧ c.pitch_data.length = 0) ∧
  (fs.lookup ("LA") = some none ↔
    c.batted_balls ≠ [] ∧ c.batted_balls.filterMap Pitch.launch_angle = [])

/-- The claim C9's own reading of the wOBA fallback, modelled from the
claim's words: sums taken over the plate appearances where BOTH
`woba_value` and `woba_denom` are present (the code instead sums the two
columns independently). -/
def xwobaSpec (c : StatcastFeatureCalculator) : ℚ :=
  if c.cols.estimated_woba_using_speedangle = true ∧
      (c.pas.filterMap Pitch.estimated_woba_using_speedangle).length > 0 then
    listMean (c.pas.filterMap Pitch.estimated_woba_using_speedangle)
  else
    if c.cols.woba_value = true ∧ c.cols.woba_denom = true ∧
        ((c.pas.filter (fun p => p.woba_value.isSome && p.woba_denom.isSome)).filterMap
          Pitch.woba_denom).sum > 0 then
      ((c.pas.filter (fun p => p.woba_value.isSome && p.woba_denom.isSome)).filterMap
        Pitch.woba_value).sum /
      ((c.pas.filter (fun p => p.woba_value.isSome && p.woba_denom.isSome)).filterMap
        Pitch.woba_denom).sum
    else 0

/-- The case analysis of `_xwoba` (C9, amended): mean of the present
expected-wOBA values; otherwise the quotient of the two INDEPENDENT
column sums when the denominator sum is positive; otherwise `0`. -/
def xwobaCharacterization (c : StatcastFeatureCalculator) : Prop :=
  (c.cols.estimated_woba_using_speedangle = true →
    c.pas.filterMap Pitch.estimated_woba_using_speedangle ≠ [] →
    c._xwoba = listMean (c.pas.filterMap Pitch.estimated_woba_using_speedangle)) ∧
  ((c.cols.estimated_woba_using_speedangle = false ∨
      c.pas.filterMap Pitch.estimated_woba_using_speedangle = []) →
    c.cols.woba_value = true → c.cols.woba_denom = true →
    0 < (c.pas.filterMap Pitch.woba_denom).sum →
    c._xwoba = (c.pas.filterMap Pitch.woba_value).sum /
      (c.pas.filterMap Pitch.woba_denom).sum) ∧
  ((c.cols.estimated_woba_using_speedangle = false ∨
      c.pas.filterMap Pitch.estimated_woba_using_speedangle = []) →
    (c.cols.woba_value = false ∨ c.cols.woba_denom = false ∨
      (c.pas.filterMap Pitch.woba_denom).sum ≤ 0) →
    c._xwoba = 0)

/-- Replaces the `stand` cell of every plate-appearance row, leaving every
other cell and the column flags unchanged — used to state that `Cent%`
does not depend on handedness. -/
def updateStand (c : StatcastFeatureCalculator) (f : Pitch → Option String) :
    StatcastFeatureCalculator :=
  { c with pas := c.pas.map (fun p => { p with stand := f p }) }

/-- The spray-direction property (C10): `Pull%` and `Oppo%` count rows by
the loop conditions (which require both cells present) over the FULL
batted-ball denominator, `Cent%` counts the 100–150 band over the same
denominator, rows with a missing cell can never enter the pull/oppo
numerators, and `Cent%` is invariant under any rewrite of the `stand`
column. -/
def sprayRates (c : StatcastFeatureCalculator) (f : Pitch → Option String) : Prop :=
  c._pull_rate = (c.batted_balls.countP StatcastFeatureCalculator.pullCond : ℚ) /
    c.batted_balls.length ∧
  c._oppo_rate = (c.batted_balls.countP StatcastFeatureCalculator.oppoCond : ℚ) /
    c.batted_balls.length ∧
  c._center_rate = (c.batted_balls.countP
      (fun p => cellGe p.hc_x 100 && cellLe p.hc_x 150) : ℚ) / c.batted_balls.length ∧
  (∀ p : Pitch, p.hc_x = none ∨ p.stand = none →
    StatcastFeatureCalculator.pullCond p = false ∧
    StatcastFeatureCalculator.oppoCond p = false) ∧
  (updateStand c f)._center_rate = c._center_rate

/-- The column-tolerance property (C3, amended): once the two
constructor-required columns are present the constructor succeeds; the
whole feature battery completes whenever `launch_angle` is present or no
batted ball exists, and aborts with the `launch_angle` `KeyError`
otherwise; and each metric guarded by a column-presence check falls back
to its documented default when its column is absent, independently of the
other metrics. -/
def columnTolerance (t : PitchTable) : Prop :=
  ∃ c, StatcastFeatureCalculator.init t = Except.ok c ∧
    c.cols = t.cols ∧
    ((t.cols.launch_angle = true ∨ c.batted_balls = []) →
      ∃ fs, c.calculate_all_features = Except.ok fs) ∧
    (t.cols.launch_angle = false → c.batted_balls ≠ [] →
      c.calculate_all_features = Except.error ColErr.launch_angle) ∧
    (t.cols.bb_type = false →
      c._hr_fb = 0 ∧ c._ld_rate = 0 ∧ c._gb_rate = 0 ∧ c._fb_rate = 0) ∧
    (t.cols.zone = false →
      c._o_swing_rate = 0 ∧ c._z_swing_rate = 0 ∧
      c._o_contact_rate = 0 ∧ c._z_contact_rate = 0) ∧
    (t.cols.description = false →
      c._o_swing_rate = 0 ∧ c._z_swing_rate = 0 ∧ c._swinging_strike_rate = some 0 ∧
      c._o_contact_rate = 0 ∧ c._z_contact_rate = 0) ∧
    (t.cols.hc_x = false → c._pull_rate = 0 ∧ c._center_rate = 0 ∧ c._oppo_rate = 0) ∧
    (t.cols.stand = false → c._pull_rate = 0 ∧ c._oppo_rate = 0) ∧
    (t.cols.estimated_woba_using_speedangle = false →
      (t.cols.woba_value = false ∨ t.cols.woba_denom = false) →
      c._xwoba = 0 ∧ c._xwrc_plus = 100)

/-! ### Helper lemmas -/

/-- A quotient of counts with numerator at most denominator and positive
denominator lies in the unit interval. -/
theorem natRatio_inUnit {a b : ℕ} (hab : a ≤ b) (hb : 0 < b) :
    inUnitInterval ((a : ℚ) / b) := by
  constructor
  · exact div_nonneg (by positivity) (by positivity)
  · rw [div_le_one (by exact_mod_cast hb)]
    exact_mod_cast hab

/-- The unit interval contains zero. -/
theorem zero_inUnit : inUnitInterval 0 :=
  ⟨le_refl 0, by norm_num⟩

/-- Counts of three pairwise-exclusive tests are jointly bounded by the
list length. -/
theorem countP_three_le_length {α : Type} (l : List α) (p q r : α → Bool)
    (h : ∀ a, ¬(p a = true ∧ q a = true) ∧ ¬(p a = true ∧ r a = true) ∧
      ¬(q a = true ∧ r a = true)) :
    l.countP p + l.countP q + l.countP r ≤ l.length := by
  induction l with
  | nil => simp
  | cons a l ih =>
    rcases h a with ⟨hpq, hpr, hqr⟩
    simp only [List.countP_cons, List.length_cons]
    by_cases hp : p a = true <;> by_cases hq : q a = true <;> by_cases hr : r a = true <;>
      simp [hp, hq, hr] at hpq hpr hqr ⊢ <;> omega

/-- The last entry of the non-null values of a column splits into the
terminal entry (when non-null) and the earlier entries. -/
theorem terminalFieldWins_lastNonNull {α : Type} (f : Pitch → Option α) (g : List Pitch)
    (hg : g ≠ []) :
    terminalFieldWins f g (g.getLast hg) (lastNonNull g f) := by
  have hsplit : g.dropLast ++ [g.getLast hg] = g := List.dropLast_append_getLast hg
  constructor
  · intro hs
    rcases Option.isSome_iff_exists.mp hs with ⟨v, hv⟩
    unfold lastNonNull
    conv_lhs => rw [← hsplit]
    simp [List.filterMap_append, List.filterMap_cons, hv, List.getLast?_concat]
  · intro hn
    unfold lastNonNull
    conv_lhs => rw [← hsplit]
    simp [List.filterMap_append, List.filterMap_cons, hn]

/-- Every key the reducer emits has at least one matching row. -/
theorem groupRows_ne_nil_of_mem_keys (rows : List Pitch) (k : Nat × Nat)
    (hk : k ∈ sortKeys ((rows.map paKey).dedup)) : groupRows rows k ≠ [] := by
  have h1 : k ∈ (rows.map paKey).dedup := (List.perm_insertionSort _ _).mem_iff.mp hk
  have h2 : k ∈ rows.map paKey := List.mem_dedup.mp h1
  rcases List.mem_map.mp h2 with ⟨p, hp, hpk⟩
  have hmem : p ∈ groupRows rows k := by
    unfold groupRows
    exact List.mem_filter.mpr ⟨hp, by simp [hpk]⟩
  exact List.ne_nil_of_mem hmem

/-! ### Claims -/

/-- C1 (counterexample): the claim that each reduced row equals, field for
field, the terminal pitch of its group is false: on `c1Rows` the only
plate-appearance row carries `events = "strikeout"` from the NON-terminal
pitch, while the terminal pitch's `events` cell is null — pandas
`groupby(...).last()` takes the last non-null entry per column. -/
theorem C1_counterexample :
    makePas c1Rows = [c1Pa] ∧
    (sortPitches c1Rows).getLast? = some c1p2 ∧
    c1p2.events = none ∧ c1Pa.events = some ("strikeout") :=
  ⟨by decide, by decide, rfl, rfl⟩

/-- C1 (amended): every reduced row takes each field from the terminal
pitch of its `(game_date, at_bat_number)` group whenever the terminal
pitch's cell is non-null; a null cell on the terminal pitch instead
receives the last non-null value among the earlier pitches of the group. -/
theorem C1_terminal_last_nonnull (rows : List Pitch) (pa : Pitch)
    (hpa : pa ∈ makePas rows) : lastNonNullSemantics rows pa := by
  unfold makePas at hpa
  rcases List.mem_map.mp hpa with ⟨k, hk, rfl⟩
  have hgne : groupRows (sortPitches rows) k ≠ [] :=
    groupRows_ne_nil_of_mem_keys _ k hk
  refine ⟨hgne, ?_, ?_, ?_, ?_, ?_, ?_, ?_, ?_, ?_, ?_, ?_, ?_, ?_⟩
  · show ((groupRows (sortPitches rows) k).getLast?.map Pitch.inning).getD 0 =
      ((groupRows (sortPitches rows) k).getLast hgne).inning
    rw [List.getLast?_eq_getLast_of_ne_nil hgne]
    rfl
  · exact terminalFieldWins_lastNonNull Pitch.events _ hgne
  · exact terminalFieldWins_lastNonNull Pitch.description _ hgne
  · exact terminalFieldWins_lastNonNull Pitch.zone _ hgne
  · exact terminalFieldWins_lastNonNull Pitch.launch_speed _ hgne
  · exact terminalFieldWins_lastNonNull Pitch.launch_angle _ hgne
  · exact terminalFieldWins_lastNonNull Pitch.launch_speed_angle _ hgne
  · exact terminalFieldWins_lastNonNull Pitch.bb_type _ hgne
  · exact terminalFieldWins_lastNonNull Pitch.hc_x _ hgne
  · exact terminalFieldWins_lastNonNull Pitch.stand _ hgne
  · exact terminalFieldWins_lastNonNull Pitch.estimated_woba_using_speedangle _ hgne
  · exact terminalFieldWins_lastNonNull Pitch.woba_value _ hgne
  · exact terminalFieldWins_lastNonNull Pitch.woba_denom _ hgne

/-- C1 (witness): the amended semantics evaluated on the concrete
two-pitch group. -/
theorem C1_witness : lastNonNullSemantics c1Rows c1Pa :=
  C1_terminal_last_nonnull c1Rows c1Pa (by decide)

/-- C2 (code bug, evaluated at the failing input): on an empty pitch table
with all columns present the five guarded zone metrics return `0`, but
`_swinging_strike_rate` divides the whiff count by the unguarded total
pitch count, `0/0` on numpy operands, which is NaN — not the `0` the claim
and the spec promise. -/
theorem C2_swstr_nan_on_empty :
    StatcastFeatureCalculator.init emptyTable = Except.ok emptyCalc ∧
    emptyCalc._swinging_strike_rate = none ∧
    emptyCalc._o_swing_rate = 0 ∧ emptyCalc._z_swing_rate = 0 ∧
    emptyCalc._o_contact_rate = 0 ∧ emptyCalc._z_contact_rate = 0 :=
  ⟨rfl, rfl, rfl, rfl, rfl, rfl⟩

/-- C4: the reduction yields one row per distinct `(game_date,
at_bat_number)` pair, the output is ascending in `game_date`, and the
empty input reduces, without failing, to the empty sequence. -/
theorem C4_reduction_cardinality (rows : List Pitch) :
    (makePas rows).length = ((rows.map paKey).dedup).length ∧
    ((makePas rows).map Pitch.game_date).Sorted (· ≤ ·) ∧
    makePas [] = [] := by
  refine ⟨?_, ?_, rfl⟩
  · have h1 : List.Perm (sortPitches rows) rows := List.perm_insertionSort _ _
    have h4 : List.Perm (sortKeys (((sortPitches rows).map paKey).dedup))
        (((sortPitches rows).map paKey).dedup) := List.perm_insertionSort _ _
    unfold makePas
    rw [List.length_map, h4.length_eq, ((h1.map paKey).dedup).length_eq]
  · have hs : List.Sorted keyLe (sortKeys (((sortPitches rows).map paKey).dedup)) :=
      List.sorted_insertionSort _ _
    have hmap : (makePas rows).map Pitch.game_date =
        (sortKeys (((sortPitches rows).map paKey).dedup)).map Prod.fst := by
      unfold makePas
      rw [List.map_map]
      rfl
    rw [hmap]
    exact List.Pairwise.map Prod.fst (fun a b h => by unfold keyLe at h; omega) hs

/-- C6: OPS is computed as OBP plus SLG and ISO as SLG minus AVG, exactly,
for every calculator state. -/
theorem C6_ops_iso_identity (c : StatcastFeatureCalculator) :
    c._ops = c._obp + c._slg ∧ c._iso = c._slg - c._avg :=
  ⟨rfl, rfl⟩

/-- C8: the run-creation metric is `100` when the expected wOBA is zero,
otherwise the documented affine formula floored at zero, and it is never
negative. -/
theorem C8_xwrc_formula (c : StatcastFeatureCalculator) :
    (c._xwoba = 0 → c._xwrc_plus = 100) ∧
    (¬c._xwoba = 0 →
      c._xwrc_plus = max 0 (((c._xwoba - 0.320) / 1.25) / 0.320 * 100 + 100)) ∧
    0 ≤ c._xwrc_plus := by
  have hdef : c._xwrc_plus =
      if c._xwoba = 0 then 100
      else max 0 (((c._xwoba - 0.320) / 1.25) / 0.320 * 100 + 100) := rfl
  refine ⟨fun h => by rw [hdef, if_pos h], fun h => by rw [hdef, if_neg h], ?_⟩
  rw [hdef]
  by_cases h : c._xwoba = 0
  · rw [if_pos h]
    norm_num
  · rw [if_neg h]
    exact le_max_left 0 _

/-- C8 (witness): the zero-wOBA branch evaluated on the empty calculator. -/
theorem C8_witness : emptyCalc._xwrc_plus = 100 :=
  (C8_xwrc_formula emptyCalc).1 (by decide)

/-- C9 (counterexample): on `c9Table` no plate appearance carries both
wOBA fields, so the claim's both-present fallback is `0`, yet the code
sums the two columns independently and returns `9/10`. -/
theorem C9_counterexample :
    StatcastFeatureCalculator.init c9Table = Except.ok c9calc ∧
    c9calc._xwoba = 9/10 ∧ xwobaSpec c9calc = 0 ∧
    ¬c9calc._xwoba = xwobaSpec c9calc := by
  have h1 : c9calc._xwoba = 9/10 := by
    unfold StatcastFeatureCalculator._xwoba
    norm_num [c9calc, c9p1, c9p2, pitchBase, allCols, List.filterMap_cons, listMean]
  have h2 : xwobaSpec c9calc = 0 := by
    unfold xwobaSpec
    norm_num [c9calc, c9p1, c9p2, pitchBase, allCols, List.filterMap_cons, listMean]
  refine ⟨rfl, h1, h2, ?_⟩
  rw [h1, h2]
  norm_num

/-- A hit event is never one of the excluded non-at-bat events. -/
theorem hit_not_nonAb (e : String) (he : hitEvents.contains e = true) :
    (!(nonAbEvents.contains e)) = true := by
  have hm : e ∈ hitEvents := by simpa using he
  simp only [hitEvents, List.mem_cons, List.mem_singleton] at hm
  rcases hm with rfl | rfl | rfl | rfl | hm <;> first | decide | simp at hm

/-- A single, double or triple is never one of the events excluded from
the balls-in-play denominator. -/
theorem babipHit_not_excluded (e : String)
    (he : cellIn (some e) ["single", "double", "triple"] = true) :
    (!(nonBabipEvents.contains e)) = true := by
  have hm : e ∈ ["single", "double", "triple"] := by simpa [cellIn] using he
  simp only [List.mem_cons, List.mem_singleton] at hm
  rcases hm with rfl | rfl | rfl | hm <;> first | decide | simp at hm

/-- The hit, walk and hit-by-pitch tests of `_obp` are pairwise
exclusive. -/
theorem obp_tests_disjoint (e : String) :
    ¬((hitEvents.contains e) = true ∧ (e == "walk") = true) ∧
    ¬((hitEvents.contains e) = true ∧ (e == "hit_by_pitch") = true) ∧
    ¬((e == "walk") = true ∧ (e == "hit_by_pitch") = true) := by
  refine ⟨fun h => ?_, fun h => ?_, fun h => ?_⟩
  · rcases h with ⟨h1, h2⟩
    rw [show e = "walk" from by simpa using h2] at h1
    exact absurd h1 (by decide)
  · rcases h with ⟨h1, h2⟩
    rw [show e = "hit_by_pitch" from by simpa using h2] at h1
    exact absurd h1 (by decide)
  · rcases h with ⟨h1, h2⟩
    rw [show e = "walk" from by simpa using h1] at h2
    exact absurd h2 (by decide)

/-- C7 (amended): every percentage-style metric among the nineteen the
claim lists stays in the closed unit interval whenever it evaluates to a
finite number; the sixteen total ones do so unconditionally, and
`Barrel%`, `Sweet Spot%` and `SwStr%` do so whenever they return a
value. -/
theorem C7_bounded_rates (c : StatcastFeatureCalculator) : boundedRates c := by
  refine ⟨?_, ?_, ?_, ?_, ?_, ?_, ?_, ?_, ?_, ?_, ?_, ?_, ?_, ?_, ?_, ?_, ?_, ?_, ?_⟩
  · unfold StatcastFeatureCalculator._avg
    split
    · next h =>
      exact natRatio_inUnit (List.countP_mono_left (fun e _ he => hit_not_nonAb e he)) h
    · exact zero_inUnit
  · unfold StatcastFeatureCalculator._obp
    split
    · next h =>
      refine natRatio_inUnit ?_ h
      exact countP_three_le_length _ _ _ _ (fun e => obp_tests_disjoint e)
    · exact zero_inUnit
  · unfold StatcastFeatureCalculator._bb_rate
    split
    · next h => exact natRatio_inUnit (List.countP_le_length _) h
    · exact zero_inUnit
  · unfold StatcastFeatureCalculator._k_rate
    split
    · next h => exact natRatio_inUnit (List.countP_le_length _) h
    · exact zero_inUnit
  · unfold StatcastFeatureCalculator._babip
    split
    · next h =>
      exact natRatio_inUnit
        (List.countP_mono_left (fun e _ he => babipHit_not_excluded e he)) h
    · exact zero_inUnit
  · unfold StatcastFeatureCalculator._hard_hit_rate
    split
    · exact zero_inUnit
    · next h =>
      exact natRatio_inUnit (List.countP_le_length _) (Nat.pos_of_ne_zero h)
  · unfold StatcastFeatureCalculator._ld_rate
    split
    · exact zero_inUnit
    · split
      · next h => exact natRatio_inUnit (List.countP_le_length _) h
      · exact zero_inUnit
  · unfold StatcastFeatureCalculator._gb_rate
    split
    · exact zero_inUnit
    · split
      · next h => exact natRatio_inUnit (List.countP_le_length _) h
      · exact zero_inUnit
  · unfold StatcastFeatureCalculator._fb_rate
    split
    · exact zero_inUnit
    · split
      · next h => exact natRatio_inUnit (List.countP_le_length _) h
      · exact zero_inUnit
  · unfold StatcastFeatureCalculator._o_swing_rate
    split
    · exact zero_inUnit
    · split
      · exact zero_inUnit
      · next h =>
        exact natRatio_inUnit (List.countP_le_length _) (Nat.pos_of_ne_zero h)
  · unfold StatcastFeatureCalculator._z_swing_rate
    split
    · exact zero_inUnit
    · split
      · exact zero_inUnit
      · next h =>
        exact natRatio_inUnit (List.countP_le_length _) (Nat.pos_of_ne_zero h)
  · unfold StatcastFeatureCalculator._o_contact_rate
    split
    · exact zero_inUnit
    · split
      · exact zero_inUnit
      · next h =>
        exact natRatio_inUnit (List.countP_le_length _) (Nat.pos_of_ne_zero h)
  · unfold StatcastFeatureCalculator._z_contact_rate
    split
    · exact zero_inUnit
    · split
      · exact zero_inUnit
      · next h =>
        exact natRatio_inUnit (List.countP_le_length _) (Nat.pos_of_ne_zero h)
  · unfold StatcastFeatureCalculator._pull_rate
    split
    · exact zero_inUnit
    · split
      · exact zero_inUnit
      · next h =>
        exact natRatio_inUnit (List.countP_le_length _) (Nat.pos_of_ne_zero h)
  · unfold StatcastFeatureCalculator._center_rate
    split
    · exact zero_inUnit
    · split
      · exact zero_inUnit
      · next h =>
        exact natRatio_inUnit (List.countP_le_length _) (Nat.pos_of_ne_zero h)
  · unfold StatcastFeatureCalculator._oppo_rate
    split
    · exact zero_inUnit
    · split
      · exact zero_inUnit
      · next h =>
        exact natRatio_inUnit (List.countP_le_length _) (Nat.pos_of_ne_zero h)
  · intro v hv
    unfold StatcastFeatureCalculator._barrel_rate at hv
    split at hv
    · cases hv
      exact zero_inUnit
    · next h0 =>
      split at hv
      · cases hv
        refine natRatio_inUnit ?_ (Nat.pos_of_ne_zero h0)
        exact le_trans (List.countP_le_length _) (List.length_filter_le _ _)
      · split at hv
        · cases hv
          exact zero_inUnit
        · split at hv
          · simp at hv
          · cases hv
            refine natRatio_inUnit ?_ (Nat.pos_of_ne_zero h0)
            exact le_trans (List.countP_le_length _) (List.length_filter_le _ _)
  · intro v hv
    unfold StatcastFeatureCalculator._sweet_spot_rate at hv
    split at hv
    · cases hv
      exact zero_inUnit
    · next h0 =>
      split at hv
      · simp at hv
      · cases hv
        exact natRatio_inUnit (List.countP_le_length _) (Nat.pos_of_ne_zero h0)
  · intro v hv
    unfold StatcastFeatureCalculator._swinging_strike_rate at hv
    split at hv
    · cases hv
      exact zero_inUnit
    · unfold npDiv at hv
      split at hv
      · simp at hv
      · next h0 =>
        cases hv
        refine natRatio_inUnit (List.countP_le_length _) ?_
        have hne : (c.pitch_data.length : ℚ) ≠ 0 := h0
        exact Nat.pos_of_ne_zero (by exact_mod_cast hne)

/-- C7 (counterexample): the empty pitch table is a valid input on which
`SwStr%` is NaN rather than a number in `[0, 1]`. -/
theorem C7_counterexample :
    StatcastFeatureCalculator.init emptyTable = Except.ok emptyCalc ∧
    emptyCalc._swinging_strike_rate = none :=
  ⟨rfl, rfl⟩

/-- C7 (witness): the amended bounds evaluated on the empty calculator. -/
theorem C7_witness : boundedRates emptyCalc :=
  C7_bounded_rates emptyCalc

/-- Bind on an `Except` success reduces to the continuation. -/
theorem ebind_ok {ε α β : Type} (a : α) (f : α → Except ε β) :
    (Except.ok a : Except ε α) >>= f = f a :=
  rfl

/-- Bind on an `Except` failure propagates the failure. -/
theorem ebind_error {ε α β : Type} (e : ε) (f : α → Except ε β) :
    (Except.error e : Except ε α) >>= f = Except.error e :=
  rfl

/-- `_barrel_rate` cannot raise when the `launch_angle` column is present
or there is no batted ball. -/
theorem barrel_ok (c : StatcastFeatureCalculator)
    (h : c.cols.launch_angle = true ∨ c.batted_balls = []) :
    ∃ b, c._barrel_rate = Except.ok b := by
  unfold StatcastFeatureCalculator._barrel_rate
  split
  · exact ⟨_, rfl⟩
  · split
    · exact ⟨_, rfl⟩
    · split
      · exact ⟨_, rfl⟩
      · next hbne =>
        split
        · next hla =>
          exfalso
          rcases h with h | h
          · rw [h] at hla
            simp at hla
          · rw [h] at hbne
            exact hbne rfl
        · exact ⟨_, rfl⟩

/-- `_avg_launch_angle` cannot raise when the `launch_angle` column is
present or there is no batted ball. -/
theorem avg_launch_angle_ok (c : StatcastFeatureCalculator)
    (h : c.cols.launch_angle = true ∨ c.batted_balls = []) :
    ∃ v, c._avg_launch_angle = Except.ok v := by
  unfold StatcastFeatureCalculator._avg_launch_angle
  split
  · exact ⟨_, rfl⟩
  · next hbne =>
    split
    · next hla =>
      exfalso
      rcases h with h | h
      · rw [h] at hla
        simp at hla
      · rw [h] at hbne
        exact hbne rfl
    · split
      · exact ⟨_, rfl⟩
      · exact ⟨_, rfl⟩

/-- `_sweet_spot_rate` cannot raise when the `launch_angle` column is
present or there is no batted ball. -/
theorem sweet_spot_ok (c : StatcastFeatureCalculator)
    (h : c.cols.launch_angle = true ∨ c.batted_balls = []) :
    ∃ s, c._sweet_spot_rate = Except.ok s := by
  unfold StatcastFeatureCalculator._sweet_spot_rate
  split
  · exact ⟨_, rfl⟩
  · next hbne =>
    split
    · next hla =>
      exfalso
      rcases h with h | h
      · rw [h] at hla
        simp at hla
      · rw [h] at hbne
        exact hbne rfl
    · exact ⟨_, rfl⟩

/-- The whole feature battery completes when the `launch_angle` column is
present or there is no batted ball. -/
theorem calc_features_ok (c : StatcastFeatureCalculator)
    (h : c.cols.launch_angle = true ∨ c.batted_balls = []) :
    ∃ fs, c.calculate_all_features = Except.ok fs := by
  rcases barrel_ok c h with ⟨b, hb⟩
  rcases avg_launch_angle_ok c h with ⟨l, hla⟩
  rcases sweet_spot_ok c h with ⟨s, hs⟩
  cases hc : c.calculate_all_features with
  | ok fs => exact ⟨fs, rfl⟩
  | error e =>
    exfalso
    unfold StatcastFeatureCalculator.calculate_all_features
      StatcastFeatureCalculator._advanced_features at hc
    rw [hb] at hc
    simp only [ebind_ok] at hc
    rw [hla] at hc
    simp only [ebind_ok] at hc
    rw [hs] at hc
    simp only [ebind_ok] at hc
    exact Except.noConfusion hc

/-- The whole feature battery aborts with the `launch_angle` `KeyError`
when that column is absent and a batted ball exists. -/
theorem calc_features_error (c : StatcastFeatureCalculator)
    (hla : c.cols.launch_angle = false) (hbb : c.batted_balls ≠ []) :
    c.calculate_all_features = Except.error ColErr.launch_angle := by
  have hbne : ¬(c.batted_balls.length = 0) := fun h0 => hbb (List.length_eq_zero.mp h0)
  have hlaerr : c._avg_launch_angle = Except.error ColErr.launch_angle := by
    unfold StatcastFeatureCalculator._avg_launch_angle
    rw [if_neg hbne, if_pos hla]
  have hbr : c._barrel_rate = Except.error ColErr.launch_angle ∨
      ∃ b, c._barrel_rate = Except.ok b := by
    unfold StatcastFeatureCalculator._barrel_rate
    split
    · exact Or.inr ⟨_, rfl⟩
    · split
      · exact Or.inr ⟨_, rfl⟩
      · exact Or.inl rfl
  rcases hbr with hbr | ⟨b, hb⟩
  · unfold StatcastFeatureCalculator.calculate_all_features
      StatcastFeatureCalculator._advanced_features
    rw [hbr]
    simp only [ebind_error]
  · unfold StatcastFeatureCalculator.calculate_all_features
      StatcastFeatureCalculator._advanced_features
    rw [hb]
    simp only [ebind_ok]
    rw [hlaerr]
    simp only [ebind_error]

/-- C3 (counterexample): the claim that the absence of ANY non-key
optional column (including `events`) never aborts is false: the
constructor indexes the `events` column unconditionally and raises a
`KeyError` on `noEventsTable`. -/
theorem C3_counterexample :
    StatcastFeatureCalculator.init noEventsTable = Except.error ColErr.events :=
  rfl

/-- C3 (amended): with the constructor-required `events` and
`launch_speed` columns present, construction succeeds; computation of the
full battery completes unless `launch_angle` is absent while a batted ball
exists (in which case it aborts with that `KeyError`); and each metric
guarded by a column check independently returns its documented default
when its column is absent. -/
theorem C3_column_tolerance (t : PitchTable)
    (he : t.cols.events = true) (hl : t.cols.launch_speed = true) :
    columnTolerance t := by
  refine ⟨{ cols := t.cols, pitch_data := sortPitches t.rows, pas := makePas t.rows },
    ?_, rfl, ?_, ?_, ?_, ?_, ?_, ?_, ?_, ?_⟩
  · simp [StatcastFeatureCalculator.init, he, hl]
  · intro h
    exact calc_features_ok _ h
  · intro hla hbb
    exact calc_features_error _ hla hbb
  · intro h
    refine ⟨?_, ?_, ?_, ?_⟩ <;>
      simp [StatcastFeatureCalculator._hr_fb, StatcastFeatureCalculator._ld_rate,
        StatcastFeatureCalculator._gb_rate, StatcastFeatureCalculator._fb_rate, h]
  · intro h
    refine ⟨?_, ?_, ?_, ?_⟩ <;>
      simp [StatcastFeatureCalculator._o_swing_rate, StatcastFeatureCalculator._z_swing_rate,
        StatcastFeatureCalculator._o_contact_rate, StatcastFeatureCalculator._z_contact_rate, h]
  · intro h
    refine ⟨?_, ?_, ?_, ?_, ?_⟩ <;>
      simp [StatcastFeatureCalculator._o_swing_rate, StatcastFeatureCalculator._z_swing_rate,
        StatcastFeatureCalculator._swinging_strike_rate,
        StatcastFeatureCalculator._o_contact_rate, StatcastFeatureCalculator._z_contact_rate, h]
  · intro h
    refine ⟨?_, ?_, ?_⟩ <;>
      simp [StatcastFeatureCalculator._pull_rate, StatcastFeatureCalculator._center_rate,
        StatcastFeatureCalculator._oppo_rate, h]
  · intro h
    refine ⟨?_, ?_⟩ <;>
      simp [StatcastFeatureCalculator._pull_rate, StatcastFeatureCalculator._oppo_rate, h]
  · intro hest hw
    have hx : StatcastFeatureCalculator._xwoba
        { cols := t.cols, pitch_data := sortPitches t.rows, pas := makePas t.rows } = 0 := by
      rcases hw with h | h <;>
        simp [StatcastFeatureCalculator._xwoba, hest, h]
    refine ⟨hx, ?_⟩
    unfold StatcastFeatureCalculator._xwrc_plus
    rw [if_pos hx]

/-- C3 (witness): the amended tolerance evaluated on the minimal table
that has only the two required columns. -/
theorem C3_witness : columnTolerance c3wTable :=
  C3_column_tolerance c3wTable rfl rfl

/-- C9 (amended): the expected wOBA is the mean of the present
`estimated_woba_using_speedangle` values; failing that, the quotient of
the independent column sums of `woba_value` and `woba_denom` when the
denominator sum is positive; failing that, zero. -/
theorem C9_xwoba_characterization (c : StatcastFeatureCalculator) :
    xwobaCharacterization c := by
  refine ⟨?_, ?_, ?_⟩
  · intro hest hne
    unfold StatcastFeatureCalculator._xwoba
    rw [if_pos ⟨hest, List.length_pos.mpr hne⟩]
  · intro h1 hwv hwd hpos
    have hnot1 : ¬(c.cols.estimated_woba_using_speedangle = true ∧
        (c.pas.filterMap Pitch.estimated_woba_using_speedangle).length > 0) := by
      rintro ⟨ha, hb⟩
      rcases h1 with h | h
      · rw [h] at ha
        simp at ha
      · rw [h] at hb
        simp at hb
    unfold StatcastFeatureCalculator._xwoba
    rw [if_neg hnot1, if_pos ⟨hwv, hwd, hpos⟩]
  · intro h1 h2
    have hnot1 : ¬(c.cols.estimated_woba_using_speedangle = true ∧
        (c.pas.filterMap Pitch.estimated_woba_using_speedangle).length > 0) := by
      rintro ⟨ha, hb⟩
      rcases h1 with h | h
      · rw [h] at ha
        simp at ha
      · rw [h] at hb
        simp at hb
    have hnot2 : ¬(c.cols.woba_value = true ∧ c.cols.woba_denom = true ∧
        (c.pas.filterMap Pitch.woba_denom).sum > 0) := by
      rintro ⟨ha, hb, hc⟩
      rcases h2 with h | h | h
      · rw [h] at ha
        simp at ha
      · rw [h] at hb
        simp at hb
      · exact absurd hc (not_lt.mpr h)
    unfold StatcastFeatureCalculator._xwoba
    rw [if_neg hnot1, if_neg hnot2]

/-- C9 (witness): the independent-sum fallback evaluated on the concrete
two-appearance calculator. -/
theorem C9_witness :
    c9calc._xwoba = (c9calc.pas.filterMap Pitch.woba_value).sum /
      (c9calc.pas.filterMap Pitch.woba_denom).sum :=
  (C9_xwoba_characterization c9calc).2.1 (Or.inl rfl) rfl rfl (by
    norm_num [c9calc, c9p1, c9p2, pitchBase, List.filterMap_cons])

/-- C10: `Pull%` and `Oppo%` count rows passing the handedness-conditional
location test — which requires both `hc_x` and `stand` cells present — yet
divide by the full batted-ball count; `Cent%` counts the 100–150 band over
the same denominator and is invariant under any rewrite of the `stand`
column. -/
theorem C10_spray_rates (c : StatcastFeatureCalculator) (f : Pitch → Option String)
    (hx : c.cols.hc_x = true) (hs : c.cols.stand = true)
    (hne : c.batted_balls ≠ []) : sprayRates c f := by
  have hlen : ¬(c.batted_balls.length = 0) := fun h0 => hne (List.length_eq_zero.mp h0)
  have hcols1 : ¬(c.cols.hc_x = false ∨ c.cols.stand = false) := by
    rintro (h | h)
    · rw [hx] at h
      simp at h
    · rw [hs] at h
      simp at h
  have hcolx : ¬(c.cols.hc_x = false) := by
    rw [hx]
    simp
  refine ⟨?_, ?_, ?_, ?_, ?_⟩
  · unfold StatcastFeatureCalculator._pull_rate
    rw [if_neg hcols1, if_neg hlen]
  · unfold StatcastFeatureCalculator._oppo_rate
    rw [if_neg hcols1, if_neg hlen]
  · unfold StatcastFeatureCalculator._center_rate
    rw [if_neg hcolx, if_neg hlen]
  · intro p hp
    rcases hp with hp | hp <;>
      simp [StatcastFeatureCalculator.pullCond, StatcastFeatureCalculator.oppoCond, hp]
  · have h2 : (updateStand c f).batted_balls =
        c.batted_balls.map (fun p => { p with stand := f p }) := by
      unfold StatcastFeatureCalculator.batted_balls updateStand
      exact List.filter_map _ _
    unfold StatcastFeatureCalculator._center_rate
    rw [show (updateStand c f).cols = c.cols from rfl, h2, List.length_map,
      List.countP_map]
    rfl

/-- C10 (witness): the spray-rate property evaluated on the concrete
three-batted-ball calculator, rewriting `stand` to null everywhere. -/
theorem C10_witness : sprayRates c10calc (fun _ => none) :=
  C10_spray_rates c10calc (fun _ => none) rfl rfl (by decide)

/-- `pure` bound into a continuation reduces to the continuation. -/
theorem epure_bind {ε α β : Type} (a : α) (f : α → Except ε β) :
    (pure a : Except ε α) >>= f = f a :=
  rfl

/-- `pure` on `Except` is `Except.ok`. -/
theorem epure_def {ε α : Type} (a : α) : (pure a : Except ε α) = Except.ok a :=
  rfl

/-- The feature list computed on the empty table, in closed form: every
default, with `SwStr%` at NaN. -/
theorem emptyCalc_features :
    emptyCalc.calculate_all_features = Except.ok c5wFeats := by
  have hxw : emptyCalc._xwoba = 0 := by decide
  have hxwrc : emptyCalc._xwrc_plus = 100 := by
    unfold StatcastFeatureCalculator._xwrc_plus
    rw [if_pos hxw]
  have hops : emptyCalc._ops = 0 := by
    unfold StatcastFeatureCalculator._ops
    rw [show emptyCalc._obp = 0 from rfl, show emptyCalc._slg = 0 from rfl]
    norm_num
  have hiso : emptyCalc._iso = 0 := by
    unfold StatcastFeatureCalculator._iso
    rw [show emptyCalc._slg = 0 from rfl, show emptyCalc._avg = 0 from rfl]
    norm_num
  have hshape : emptyCalc.calculate_all_features = Except.ok
      [("AVG", some 0), ("OBP", some 0), ("SLG", some 0),
       ("OPS", some emptyCalc._ops), ("ISO", some emptyCalc._iso), ("BB%", some 0),
       ("K%", some 0), ("BABIP", some 0), ("HR/FB", some 0), ("LD%", some 0),
       ("GB%", some 0), ("FB%", some 0), ("xwOBA", some emptyCalc._xwoba),
       ("xwRC+", some emptyCalc._xwrc_plus),
       ("Hard%", some 0), ("EV", some 0), ("maxEV", some 0), ("Barrel%", some 0),
       ("LA", some 0), ("Sweet Spot%", some 0), ("O-Swing%", some 0),
       ("Z-Swing%", some 0), ("SwStr%", none), ("O-Contact%", some 0),
       ("Z-Contact%", some 0), ("Pull%", some 0), ("Cent%", some 0),
       ("Oppo%", some 0)] := rfl
  rw [hshape, hops, hiso, hxw, hxwrc]
  rfl

/-- C5 (counterexample): on the empty table the mapping does contain all
28 keys, but the `SwStr%` key is bound to NaN, not to a defined numeric
value. -/
theorem C5_counterexample :
    StatcastFeatureCalculator.init emptyTable = Except.ok emptyCalc ∧
    emptyCalc.calculate_all_features = Except.ok c5wFeats ∧
    c5wFeats.lookup ("SwStr%") = some none :=
  ⟨rfl, emptyCalc_features, by decide⟩

/-- C5 (amended): whenever the battery completes, the key list is exactly
the fixed 28-key catalog; every key other than `SwStr%` and `LA` carries a
finite numeric value; `SwStr%` is NaN exactly on an empty table with the
`description` column present, and `LA` is NaN exactly when batted balls
exist but none has a `launch_angle` value. -/
theorem C5_key_completeness (c : StatcastFeatureCalculator)
    (fs : List (String × Option ℚ))
    (h : c.calculate_all_features = Except.ok fs) : featureCompleteness c fs := by
  cases hbr : c._barrel_rate with
  | error e =>
    exfalso
    unfold StatcastFeatureCalculator.calculate_all_features
      StatcastFeatureCalculator._advanced_features at h
    rw [hbr] at h
    simp only [ebind_error] at h
    exact Except.noConfusion h
  | ok b =>
  cases hla : c._avg_launch_angle with
  | error e =>
    exfalso
    unfold StatcastFeatureCalculator.calculate_all_features
      StatcastFeatureCalculator._advanced_features at h
    rw [hbr] at h
    simp only [ebind_ok] at h
    rw [hla] at h
    simp only [ebind_error] at h
    exact Except.noConfusion h
  | ok l =>
  cases hss : c._sweet_spot_rate with
  | error e =>
    exfalso
    unfold StatcastFeatureCalculator.calculate_all_features
      StatcastFeatureCalculator._advanced_features at h
    rw [hbr] at h
    simp only [ebind_ok] at h
    rw [hla] at h
    simp only [ebind_ok] at h
    rw [hss] at h
    simp only [ebind_error] at h
    exact Except.noConfusion h
  | ok s =>
  have hfs : fs = c._basic_features ++
      [("Hard%", some c._hard_hit_rate), ("EV", some c._avg_exit_velo),
       ("maxEV", some c._max_exit_velo), ("Barrel%", some b), ("LA", l),
       ("Sweet Spot%", some s), ("O-Swing%", some c._o_swing_rate),
       ("Z-Swing%", some c._z_swing_rate), ("SwStr%", c._swinging_strike_rate),
       ("O-Contact%", some c._o_contact_rate), ("Z-Contact%", some c._z_contact_rate),
       ("Pull%", some c._pull_rate), ("Cent%", some c._center_rate),
       ("Oppo%", some c._oppo_rate)] := by
    unfold StatcastFeatureCalculator.calculate_all_features
      StatcastFeatureCalculator._advanced_features at h
    rw [hbr] at h
    simp only [ebind_ok] at h
    rw [hla] at h
    simp only [ebind_ok] at h
    rw [hss] at h
    simp only [ebind_ok] at h
    simp only [epure_bind, epure_def] at h
    injection h with h
    exact h.symm
  subst hfs
  have hlook1 : (c._basic_features ++
      [("Hard%", some c._hard_hit_rate), ("EV", some c._avg_exit_velo),
       ("maxEV", some c._max_exit_velo), ("Barrel%", some b), ("LA", l),
       ("Sweet Spot%", some s), ("O-Swing%", some c._o_swing_rate),
       ("Z-Swing%", some c._z_swing_rate), ("SwStr%", c._swinging_strike_rate),
       ("O-Contact%", some c._o_contact_rate), ("Z-Contact%", some c._z_contact_rate),
       ("Pull%", some c._pull_rate), ("Cent%", some c._center_rate),
       ("Oppo%", some c._oppo_rate)]).lookup ("SwStr%") =
      some (c._swinging_strike_rate) := rfl
  have hlook2 : (c._basic_features ++
      [("Hard%", some c._hard_hit_rate), ("EV", some c._avg_exit_velo),
       ("maxEV", some c._max_exit_velo), ("Barrel%", some b), ("LA", l),
       ("Sweet Spot%", some s), ("O-Swing%", some c._o_swing_rate),
       ("Z-Swing%", some c._z_swing_rate), ("SwStr%", c._swinging_strike_rate),
       ("O-Contact%", some c._o_contact_rate), ("Z-Contact%", some c._z_contact_rate),
       ("Pull%", some c._pull_rate), ("Cent%", some c._center_rate),
       ("Oppo%", some c._oppo_rate)]).lookup ("LA") = some l := rfl
  refine ⟨rfl, ?_, ?_, ?_⟩
  · have hall : ∀ p ∈ c._basic_features ++
        [("Hard%", some c._hard_hit_rate), ("EV", some c._avg_exit_velo),
         ("maxEV", some c._max_exit_velo), ("Barrel%", some b), ("LA", l),
         ("Sweet Spot%", some s), ("O-Swing%", some c._o_swing_rate),
         ("Z-Swing%", some c._z_swing_rate), ("SwStr%", c._swinging_strike_rate),
         ("O-Contact%", some c._o_contact_rate), ("Z-Contact%", some c._z_contact_rate),
         ("Pull%", some c._pull_rate), ("Cent%", some c._center_rate),
         ("Oppo%", some c._oppo_rate)],
        p.1 = "SwStr%" ∨ p.1 = "LA" ∨ p.2.isSome = true := by
      simp [StatcastFeatureCalculator._basic_features]
    intro k v hkv h1 h2
    rcases hall (k, v) hkv with h | h | h
    · exact absurd h h1
    · exact absurd h h2
    · exact h
  · rw [hlook1]
    constructor
    · intro hsw
      have hsw' : c._swinging_strike_rate = none := by
        injection hsw
      unfold StatcastFeatureCalculator._swinging_strike_rate at hsw'
      split at hsw'
      · simp at hsw'
      · next hdesc =>
        unfold npDiv at hsw'
        split at hsw'
        · next hz =>
          refine ⟨?_, by exact_mod_cast hz⟩
          simp at hdesc
          exact hdesc
        · simp at hsw'
    · rintro ⟨hdesc, hlenz⟩
      have hdesc' : ¬(c.cols.description = false) := by
        rw [hdesc]
        simp
      unfold StatcastFeatureCalculator._swinging_strike_rate npDiv
      rw [if_neg hdesc', if_pos (show ((c.pitch_data.length : ℚ) = 0) by
        exact_mod_cast hlenz)]
  · rw [hlook2]
    constructor
    · intro hla0
      have hl0 : l = none := by
        injection hla0
      subst hl0
      unfold StatcastFeatureCalculator._avg_launch_angle at hla
      split at hla
      · simp at hla
      · next hbne =>
        split at hla
        · simp at hla
        · split at hla
          · next hlenz =>
            refine ⟨?_, List.length_eq_zero.mp hlenz⟩
            intro hnil
            rw [hnil] at hbne
            exact hbne rfl
          · simp at hla
    · rintro ⟨hbb, hmap⟩
      have hbne : ¬(c.batted_balls.length = 0) :=
        fun h0 => hbb (List.length_eq_zero.mp h0)
      unfold StatcastFeatureCalculator._avg_launch_angle at hla
      rw [if_neg hbne] at hla
      split at hla
      · simp at hla
      · rw [if_pos (show (c.batted_balls.filterMap Pitch.launch_angle).length = 0 by
          rw [hmap]; rfl)] at hla
        injection hla with h
        rw [← h]

/-- C5 (witness): the amended completeness evaluated on the empty table's
feature list. -/
theorem C5_witness : featureCompleteness emptyCalc c5wFeats :=
  C5_key_completeness emptyCalc c5wFeats emptyCalc_features
